import Mathlib

/-!
Shallow embedding of `src/app.py` (football-api-app), the data-acquisition
and presentation-processing layer of a Flask application.

Modelling conventions:
* Python dict records become Lean structures. The source reads record fields
  with `dict.get(key, default)`; fields are modelled as always-present, with
  the default value (`""`, `None`) playing the role of the missing key.
* An outbound HTTP call is modelled by a `RemoteCall` value handed to the
  function: `exn` is a raised exception (network error, timeout), and
  `resp status body` is a response whose `.json()` parse either raises
  (`Except.error ()`) or yields the already-extracted list (`Except.ok`),
  `dict.get("competitions"/"matches", [])` included.
* `time.time()` timestamps are integers (seconds); `datetime.now()` instants
  are natural numbers (seconds since the Unix epoch).
* Each fetch function returns, besides the Python return value, whether it
  consulted the network (`remoteCalled`) and, for the competitions fetch,
  the state of the module-level cache after the call.
* All functions are total: no Python exception escapes any of the modelled
  functions (each body is wrapped in `try/except` in the source), so totality
  of the Lean functions mirrors the source's "never raises" behaviour.
-/

/-- The `area` sub-dictionary of a competition record (`{"name": ...}`). -/
structure Area where
  name : String
deriving DecidableEq, Repr

/-- A competition record as used by `src/app.py`: `name`, `code`,
`area.name` and `plan` fields. -/
structure Competition where
  name : String
  code : String
  area : Area
  plan : String
deriving DecidableEq, Repr

/-- A team sub-dictionary of a match record: `name` plus an optional
`crest` key (present in `FALLBACK_MATCHES`, absent in the upcoming
fixtures). -/
structure Team where
  name : String
  crest : Option String
deriving DecidableEq, Repr

/-- The `score.fullTime` sub-dictionary: optional home/away goals. -/
structure FullTimeScore where
  home : Option Int
  away : Option Int
deriving DecidableEq, Repr

/-- A match record as used by `src/app.py`. `score` models the
`score.fullTime` dictionary; `utcDate` is the ISO timestamp string. -/
structure MatchRec where
  homeTeam : Team
  awayTeam : Team
  utcDate : String
  status : String
  competition : String
  score : FullTimeScore
deriving DecidableEq, Repr

/-- The module-level `api_cache = {"data": None, "timestamp": 0}` slot.
`data = none` models `None`; a cached list is `some l`. -/
structure Cache where
  data : Option (List Competition)
  timestamp : Int
deriving DecidableEq, Repr

/-- Outcome of one `requests.get` call together with the `.json()` parse:
`exn` models a raised exception (connection error, timeout); `resp s b`
models a response with status code `s` whose body parse yields `b`
(`Except.error ()` when `.json()` raises on a malformed body). -/
inductive RemoteCall (α : Type) where
  | exn : RemoteCall α
  | resp (status : Nat) (body : Except Unit α) : RemoteCall α

/-- `FALLBACK_COMPETITIONS` from `src/app.py` lines 17-31: the static
13-entry fallback competition list. -/
def FALLBACK_COMPETITIONS : List Competition :=
  [ ⟨"Premier League", "PL", ⟨"England"⟩, "TIER_ONE"⟩,
    ⟨"La Liga", "PD", ⟨"Spain"⟩, "TIER_ONE"⟩,
    ⟨"Bundesliga", "BL1", ⟨"Germany"⟩, "TIER_ONE"⟩,
    ⟨"Serie A", "SA", ⟨"Italy"⟩, "TIER_ONE"⟩,
    ⟨"Ligue 1", "FL1", ⟨"France"⟩, "TIER_ONE"⟩,
    ⟨"Eredivisie", "DED", ⟨"Netherlands"⟩, "TIER_ONE"⟩,
    ⟨"Primeira Liga", "PPL", ⟨"Portugal"⟩, "TIER_ONE"⟩,
    ⟨"Championship", "ELC", ⟨"England"⟩, "TIER_TWO"⟩,
    ⟨"UEFA Champions League", "CL", ⟨"Europe"⟩, "TIER_ONE"⟩,
    ⟨"FIFA World Cup", "WC", ⟨"World"⟩, "TIER_ONE"⟩,
    ⟨"Campeonato Brasileiro Série A", "BSA", ⟨"Brazil"⟩, "TIER_ONE"⟩,
    ⟨"Copa Libertadores", "CLI", ⟨"South America"⟩, "TIER_ONE"⟩,
    ⟨"European Championship", "EC", ⟨"Europe"⟩, "TIER_ONE"⟩ ]

/-- Two-digit zero padding, as produced by `strftime` fields `%H`, `%M`,
`%S`, `%d` and by `isoformat`. -/
def pad2 (n : Nat) : String :=
  if n < 10 then "0" ++ toString n else toString n

/-- Civil date (year, month, day) from a count of days since 1970-01-01,
the conversion underlying `datetime` for post-epoch instants. -/
def civilFromDays (z : Nat) : Nat × Nat × Nat :=
  let z' := z + 719468
  let era := z' / 146097
  let doe := z' % 146097
  let yoe := (doe - doe / 1460 + doe / 36524 - doe / 146096) / 365
  let y := yoe + era * 400
  let doy := doe - (365 * yoe + yoe / 4 - yoe / 100)
  let mp := (5 * doy + 2) / 153
  let d := doy - (153 * mp + 2) / 5 + 1
  let m := if mp < 10 then mp + 3 else mp - 9
  (if m ≤ 2 then y + 1 else y, m, d)

/-- `datetime.isoformat()` on an epoch-seconds instant, at second
granularity: `"YYYY-MM-DDTHH:MM:SS"` (no UTC offset: `datetime.now()` is
naive). -/
def isoFormat (n : Nat) : String :=
  let days := n / 86400
  let secs := n % 86400
  let ymd := civilFromDays days
  toString ymd.1 ++ "-" ++ pad2 ymd.2.1 ++ "-" ++ pad2 ymd.2.2 ++ "T" ++
    pad2 (secs / 3600) ++ ":" ++ pad2 (secs % 3600 / 60) ++ ":" ++ pad2 (secs % 60)

/-- `FALLBACK_MATCHES` from `src/app.py` lines 34-59, computed once at
module import; `t0` is the import-time `datetime.now()` instant. -/
def FALLBACK_MATCHES (t0 : Nat) : List MatchRec :=
  [ ⟨⟨"Manchester United", some "🔴"⟩, ⟨"Liverpool", some "🔴"⟩,
      isoFormat (t0 + 2 * 3600), "SCHEDULED", "Premier League", ⟨none, none⟩⟩,
    ⟨⟨"Barcelona", some "🔵"⟩, ⟨"Real Madrid", some "⚪"⟩,
      isoFormat t0, "IN_PLAY", "La Liga", ⟨some 2, some 1⟩⟩,
    ⟨⟨"Bayern Munich", some "🔴"⟩, ⟨"Borussia Dortmund", some "🟡"⟩,
      isoFormat (t0 - 3600), "FINISHED", "Bundesliga", ⟨some 3, some 2⟩⟩ ]

/-- Python truthiness of `API_KEY`: configured iff the environment variable
is present and non-empty. -/
def keyConfigured : Option String → Bool
  | none => false
  | some s => !(s == "")

/-- Result of `get_competitions_data`: the returned pair
`(competitions, fallback)`, the cache state after the call, and whether
`requests.get` was invoked. -/
structure CompFetch where
  competitions : List Competition
  fallback : Bool
  cache : Cache
  remoteCalled : Bool
deriving DecidableEq, Repr

/-- The `try` block of `get_competitions_data` (lines 74-89): perform the
remote call; on status 200 parse the body, store it in the cache with the
current timestamp and return it with `fallback=False`; on any other status,
or when the call or the body parse raises, return `FALLBACK_COMPETITIONS`
with `fallback=True` and leave the cache untouched. -/
def fetchCompetitions (cache : Cache) (now : Int)
    (remote : RemoteCall (List Competition)) : CompFetch :=
  match remote with
  | .exn => ⟨FALLBACK_COMPETITIONS, true, cache, true⟩
  | .resp status body =>
    if status = 200 then
      match body with
      | .ok comps => ⟨comps, false, ⟨some comps, now⟩, true⟩
      | .error _ => ⟨FALLBACK_COMPETITIONS, true, cache, true⟩
    else
      ⟨FALLBACK_COMPETITIONS, true, cache, true⟩

/-- `get_competitions_data` (lines 65-89). The guard
`api_cache["data"] and (current_time - api_cache["timestamp"]) < CACHE_DURATION`
uses Python truthiness: `None` and the empty list are both falsy, so only a
cached non-empty list can satisfy it. -/
def get_competitions_data (cache : Cache) (now : Int)
    (remote : RemoteCall (List Competition)) : CompFetch :=
  match cache.data with
  | some (c :: cs) =>
    if now - cache.timestamp < 300 then
      ⟨c :: cs, false, cache, false⟩
    else
      fetchCompetitions cache now remote
  | _ => fetchCompetitions cache now remote

/-- Result of `get_live_matches` / `get_upcoming_matches`: the returned
pair `(matches, fallback)` and whether `requests.get` was invoked. -/
structure MatchFetch where
  matchList : List MatchRec
  fallback : Bool
  remoteCalled : Bool
deriving DecidableEq, Repr

/-- `get_live_matches` (lines 91-110): without a configured credential,
return `FALLBACK_MATCHES` with `fallback=True` before any network call;
otherwise call the matches endpoint; on status 200 return the first 10
matches with `fallback=False`; on any other status or any exception return
`FALLBACK_MATCHES` with `fallback=True`. -/
def get_live_matches (t0 : Nat) (key : Option String)
    (remote : RemoteCall (List MatchRec)) : MatchFetch :=
  if keyConfigured key then
    match remote with
    | .exn => ⟨FALLBACK_MATCHES t0, true, true⟩
    | .resp status body =>
      if status = 200 then
        match body with
        | .ok ms => ⟨ms.take 10, false, true⟩
        | .error _ => ⟨FALLBACK_MATCHES t0, true, true⟩
      else
        ⟨FALLBACK_MATCHES t0, true, true⟩
  else
    ⟨FALLBACK_MATCHES t0, true, false⟩

/-- The static 3-fixture `upcoming` list built at the top of
`get_upcoming_matches` (lines 115-140), with kick-off dates 1, 2 and 3 days
after the call-time `datetime.now()` instant `now`. -/
def upcomingDefault (now : Nat) : List MatchRec :=
  [ ⟨⟨"Chelsea", none⟩, ⟨"Arsenal", none⟩,
      isoFormat (now + 1 * 86400), "SCHEDULED", "Premier League", ⟨none, none⟩⟩,
    ⟨⟨"AC Milan", none⟩, ⟨"Inter Milan", none⟩,
      isoFormat (now + 2 * 86400), "SCHEDULED", "Serie A", ⟨none, none⟩⟩,
    ⟨⟨"Paris Saint-Germain", none⟩, ⟨"Marseille", none⟩,
      isoFormat (now + 3 * 86400), "SCHEDULED", "Ligue 1", ⟨none, none⟩⟩ ]

/-- `get_upcoming_matches` (lines 112-162): with a configured credential,
call the matches endpoint; on status 200 with a non-empty list return its
first 5 entries with `fallback=False`; in every other case (empty list,
non-200 status, exception, body parse failure, no credential) return the
static 3-fixture list with `fallback=True`. -/
def get_upcoming_matches (now : Nat) (key : Option String)
    (remote : RemoteCall (List MatchRec)) : MatchFetch :=
  let upcoming := upcomingDefault now
  if keyConfigured key then
    match remote with
    | .exn => ⟨upcoming, true, true⟩
    | .resp status body =>
      if status = 200 then
        match body with
        | .ok [] => ⟨upcoming, true, true⟩
        | .ok (m :: ms) => ⟨(m :: ms).take 5, false, true⟩
        | .error _ => ⟨upcoming, true, true⟩
      else
        ⟨upcoming, true, true⟩
  else
    ⟨upcoming, true, false⟩

/-- A parsed `datetime` value, at second granularity (a possible fractional
part and UTC offset are validated during parsing but not retained, since
`strftime('%H:%M')` and `strftime('%B %d, %Y')` do not use them). -/
structure DT where
  year : Nat
  month : Nat
  day : Nat
  hour : Nat
  minute : Nat
  second : Nat
deriving DecidableEq, Repr

/-- Value of an ASCII digit character, `none` otherwise. -/
def digitVal (c : Char) : Option Nat :=
  if c.isDigit then some (c.toNat - 48) else none

/-- Read exactly two digits. -/
def read2 : List Char → Option (Nat × List Char)
  | a :: b :: rest =>
    match digitVal a, digitVal b with
    | some x, some y => some (10 * x + y, rest)
    | _, _ => none
  | _ => none

/-- Read exactly four digits. -/
def read4 : List Char → Option (Nat × List Char)
  | a :: b :: c :: d :: rest =>
    match digitVal a, digitVal b, digitVal c, digitVal d with
    | some x, some y, some z, some w => some (1000 * x + 100 * y + 10 * z + w, rest)
    | _, _, _, _ => none
  | _ => none

/-- Consume one expected character. -/
def expectCh (c : Char) : List Char → Option (List Char)
  | x :: rest => if x == c then some rest else none
  | [] => none

/-- Count and drop a leading run of digits. -/
def takeDigits : List Char → Nat × List Char
  | c :: rest =>
    if c.isDigit then
      let p := takeDigits rest
      (p.1 + 1, p.2)
    else (0, c :: rest)
  | [] => (0, [])

/-- Gregorian leap-year test, as in `datetime`. -/
def isLeap (y : Nat) : Bool :=
  (y % 4 == 0 && y % 100 != 0) || y % 400 == 0

/-- Number of days in a month, as validated by the `datetime.date`
constructor. -/
def daysInMonth (y m : Nat) : Nat :=
  if m = 2 then (if isLeap y then 29 else 28)
  else if m = 4 ∨ m = 6 ∨ m = 9 ∨ m = 11 then 30
  else 31

/-- Parse `HH:MM[:SS[.f+]]`, returning hour, minute, second and the rest
(the fractional part, 1-6 digits, is consumed and discarded). -/
def parseTimePart (cs : List Char) : Option (Nat × Nat × Nat × List Char) := do
  let (h, r1) ← read2 cs
  let r2 ← expectCh ':' r1
  let (mi, r3) ← read2 r2
  match r3 with
  | ':' :: r4 =>
    let (sec, r5) ← read2 r4
    match r5 with
    | '.' :: r6 =>
      let p := takeDigits r6
      if 1 ≤ p.1 ∧ p.1 ≤ 6 then some (h, mi, sec, p.2) else none
    | _ => some (h, mi, sec, r5)
  | _ => some (h, mi, 0, r3)

/-- Validate a trailing UTC offset `±HH:MM[:SS[.f+]]` (or no offset at
all): the `datetime.timezone` constructor requires a well-formed offset,
and nothing may follow it. -/
def parseOffsetPart (cs : List Char) : Option Unit :=
  match cs with
  | [] => some ()
  | c :: r1 =>
    if c == '+' || c == '-' then do
      let (oh, r2) ← read2 r1
      let r3 ← expectCh ':' r2
      let (omi, r4) ← read2 r3
      let (osec, r5) ← (match r4 with
        | ':' :: r =>
          (read2 r).bind fun p =>
            match p.2 with
            | '.' :: r' =>
              let q := takeDigits r'
              if 1 ≤ q.1 ∧ q.1 ≤ 6 then some (p.1, q.2) else none
            | _ => some (p.1, p.2)
        | _ => some (0, r4))
      if oh ≤ 23 ∧ omi ≤ 59 ∧ osec ≤ 59 ∧ r5 = [] then some () else none
    else none

/-- Lex an ISO string `YYYY-MM-DD[<sep>HH:MM[:SS[.f+]][±HH:MM[:SS[.f+]]]]`
into its six calendar fields; like `datetime.fromisoformat`, the single
separator character between date and time is arbitrary. -/
def parseFields (cs : List Char) : Option (Nat × Nat × Nat × Nat × Nat × Nat) := do
  let (y, r1) ← read4 cs
  let r2 ← expectCh '-' r1
  let (mo, r3) ← read2 r2
  let r4 ← expectCh '-' r3
  let (d, r5) ← read2 r4
  match r5 with
  | [] => some (y, mo, d, 0, 0, 0)
  | _ :: r6 =>
    let (h, mi, sec, r7) ← parseTimePart r6
    let _ ← parseOffsetPart r7
    some (y, mo, d, h, mi, sec)

/-- Range validation performed by the `datetime` constructor: month 1-12,
day within the month, hour below 24, minute and second below 60. -/
def mkDT (y mo d h mi sec : Nat) : Option DT :=
  if 1 ≤ mo ∧ mo ≤ 12 ∧ 1 ≤ d ∧ d ≤ daysInMonth y mo ∧ h ≤ 23 ∧ mi ≤ 59 ∧ sec ≤ 59
  then some ⟨y, mo, d, h, mi, sec⟩
  else none

/-- Model of `datetime.fromisoformat` on the extended ISO-8601 forms the
application produces and consumes: returns `none` exactly when the Python
call raises `ValueError`. -/
def fromisoformat (s : String) : Option DT :=
  match parseFields s.data with
  | some (y, mo, d, h, mi, sec) => mkDT y mo d h mi sec
  | none => none

/-- Python's `utc_date_str.replace('Z', '+00:00')`: every occurrence of
the one-character pattern `Z` becomes `+00:00`. -/
def replaceZChars : List Char → List Char
  | [] => []
  | c :: t =>
    if c == 'Z' then '+' :: '0' :: '0' :: ':' :: '0' :: '0' :: replaceZChars t
    else c :: replaceZChars t

/-- `str.replace('Z', '+00:00')` on strings. -/
def replaceZ (s : String) : String :=
  ⟨replaceZChars s.data⟩

/-- `format_match_time` (lines 164-170): replace every `Z` with `+00:00`,
parse, print `strftime('%H:%M')`; on any parse failure return `"TBD"`. -/
def format_match_time (s : String) : String :=
  match fromisoformat (replaceZ s) with
  | some dt => pad2 dt.hour ++ ":" ++ pad2 dt.minute
  | none => "TBD"

/-- English month names used by `strftime('%B')`. -/
def monthName (m : Nat) : String :=
  ["January", "February", "March", "April", "May", "June", "July",
   "August", "September", "October", "November", "December"].getD (m - 1) ""

/-- `format_upcoming_date` (lines 172-178): replace every `Z` with
`+00:00`, parse, print `strftime('%B %d, %Y')`; on any parse failure
return `"Date TBD"`. -/
def format_upcoming_date (s : String) : String :=
  match fromisoformat (replaceZ s) with
  | some dt => monthName dt.month ++ " " ++ pad2 dt.day ++ ", " ++ toString dt.year
  | none => "Date TBD"

/-- `get_match_status_display` (lines 180-190): friendly label lookup,
defaulting to the raw status. -/
def get_match_status_display (status : String) : String :=
  let statusMap : List (String × String) :=
    [("SCHEDULED", " Scheduled"), ("IN_PLAY", " LIVE"), ("PAUSED", " Half Time"),
     ("FINISHED", " Finished"), ("POSTPONED", " Postponed"), ("CANCELLED", " Cancelled")]
  (statusMap.lookup status).getD status

/-- A live-match record as prepared for the template (lines 210-222). -/
structure ProcessedMatch where
  homeTeam : String
  awayTeam : String
  homeScore : Option Int
  awayScore : Option Int
  status : String
  competition : String
  time : String
  is_live : Bool
deriving DecidableEq, Repr

/-- Per-match processing in `home` (lines 211-222). -/
def processMatch (m : MatchRec) : ProcessedMatch :=
  ⟨m.homeTeam.name, m.awayTeam.name, m.score.home, m.score.away,
   get_match_status_display m.status, m.competition,
   format_match_time m.utcDate, m.status == "IN_PLAY"⟩

/-- An upcoming-match record as prepared for the template (lines 225-234). -/
structure ProcessedUpcoming where
  homeTeam : String
  awayTeam : String
  competition : String
  date : String
  time : String
deriving DecidableEq, Repr

/-- Per-match processing in `home` (lines 226-234). -/
def processUpcoming (m : MatchRec) : ProcessedUpcoming :=
  ⟨m.homeTeam.name, m.awayTeam.name, m.competition,
   format_upcoming_date m.utcDate, format_match_time m.utcDate⟩

/-- Python's substring test `needle in hay` on character lists: the needle
occurs as a prefix at some position of the hay (the empty needle always
occurs). -/
def charsContain : List Char → List Char → Bool
  | [], needle => needle.isEmpty
  | c :: t, needle => needle.isPrefixOf (c :: t) || charsContain t needle

/-- Python's substring test `needle in hay` on strings. -/
def strContains (hay needle : String) : Bool :=
  charsContain hay.data needle.data

/-- Python's `str.lower()`: character-wise lowercasing (ASCII case
folding, the range the application's data exercises). -/
def strToLower (s : String) : String :=
  ⟨s.data.map Char.toLower⟩

/-- The search filter of `home` (lines 236-240): the query is lowercased
on arrival (line 196); when it is non-empty, keep the competitions whose
lowercased `name` or `code` contains it. -/
def filterSearch (search : String) (comps : List Competition) : List Competition :=
  let q := strToLower search
  if q = "" then comps
  else comps.filter fun c =>
    strContains (strToLower c.name) q || strContains (strToLower c.code) q

/-- The country filter of `home` (lines 242-245): when the `country`
parameter is non-empty, keep the competitions whose lowercased `area.name`
equals the lowercased parameter. -/
def filterCountry (country : String) (comps : List Competition) : List Competition :=
  if country = "" then comps
  else comps.filter fun c => strToLower c.area.name == strToLower country

/-- The sort step of `home` (lines 247-251): `list.sort` with a string key
is a stable sort by `≤` on the key; with any other `sort` parameter the
list is untouched. -/
def sortComps (sortBy : String) (comps : List Competition) : List Competition :=
  if sortBy = "name" then comps.mergeSort fun a b => a.name ≤ b.name
  else if sortBy = "country" then comps.mergeSort fun a b => a.area.name ≤ b.area.name
  else comps

/-- The countries dropdown of `home` (lines 253-257):
`sorted(list(set(...)))` over the truthy (non-empty) area names. -/
def countriesOf (comps : List Competition) : List String :=
  (((comps.map fun c => c.area.name).filter fun s => !(s == "")).dedup).mergeSort
    fun a b => a ≤ b

/-- The keyword arguments passed to `render_template` on the success path
of `home` (lines 264-272): everything the presentation layer receives. -/
structure RenderArgs where
  competitions : List Competition
  countries : List String
  current_search : String
  current_sort : String
  current_country : String
  status_message : Option String
  live_matches : List ProcessedMatch
  upcoming_matches : List ProcessedUpcoming
deriving DecidableEq, Repr

/-- The `home` route (lines 192-272), success path. Arguments: the three
query parameters, the cache, the module-import instant `t0`, the request
instant `now`, the credential, the remote outcomes of the two
`get_competitions_data` calls (lines 201 and 254) and of the live and
upcoming fetches. Returns the template arguments and the final cache.
The `except` branch (lines 274-284) is unreachable here: every modelled
operation is total. -/
def home (search sortBy country : String) (cache : Cache) (t0 now : Nat)
    (key : Option String)
    (rc1 rc2 : RemoteCall (List Competition))
    (rlive rupcoming : RemoteCall (List MatchRec)) : RenderArgs × Cache :=
  let r1 := get_competitions_data cache (now : Int) rc1
  let live := get_live_matches t0 key rlive
  let up := get_upcoming_matches now key rupcoming
  let processed_matches := live.matchList.map processMatch
  let processed_upcoming := up.matchList.map processUpcoming
  let comps := sortComps sortBy (filterCountry country (filterSearch search r1.competitions))
  let r2 := get_competitions_data r1.cache (now : Int) rc2
  let countries := countriesOf r2.competitions
  let status_message : Option String :=
    if r1.fallback then some " Using sample data - Live API data will load when available."
    else none
  (⟨comps, countries, search, sortBy, country, status_message,
    processed_matches, processed_upcoming⟩, r2.cache)

/-- Truthiness of the cache-freshness guard at line 71:
`api_cache["data"] and (current_time - api_cache["timestamp"]) < 300`. -/
def cacheFresh (cache : Cache) (now : Int) : Bool :=
  match cache.data with
  | some (_ :: _) => now - cache.timestamp < 300
  | _ => false

/-- A remote interaction that the `try` block turns into the fallback
branch: a raised exception, a non-200 status, or a body whose `.json()`
parse raises. -/
def remoteFails {α : Type} : RemoteCall α → Bool
  | .exn => true
  | .resp s body =>
    !(s == 200) || (match body with | .ok _ => false | .error _ => true)

/-- C1. On a cache miss, whenever the remote competitions call raises or
returns a non-200 status (or a 200 body that fails to parse), the
operation returns the static fallback list with `fallback=true`, leaves
the cache untouched, and — being a total function — raises nothing; the
fallback list has 13 entries. -/
theorem claim_C1_competitions_failure_path (cache : Cache) (now : Int)
    (remote : RemoteCall (List Competition))
    (hmiss : cacheFresh cache now = false)
    (hfail : remoteFails remote = true) :
    get_competitions_data cache now remote =
      ⟨FALLBACK_COMPETITIONS, true, cache, true⟩ ∧
    FALLBACK_COMPETITIONS.length = 13 := by
  refine ⟨?_, by decide⟩
  obtain ⟨d, ts⟩ := cache
  have hfetch : fetchCompetitions ⟨d, ts⟩ now remote =
      ⟨FALLBACK_COMPETITIONS, true, ⟨d, ts⟩, true⟩ := by
    cases remote with
    | exn => rfl
    | resp s body =>
      cases body with
      | ok v =>
        simp only [remoteFails, Bool.or_eq_true, Bool.not_eq_true'] at hfail
        have hs : s ≠ 200 := by
          rcases hfail with h | h
          · exact fun hc => by simp [hc] at h
          · exact absurd h (by simp)
        simp [fetchCompetitions, hs]
      | error e =>
        simp only [fetchCompetitions]
        split <;> rfl
  cases d with
  | none => simpa [get_competitions_data] using hfetch
  | some l =>
    cases l with
    | nil => simpa [get_competitions_data] using hfetch
    | cons c cs =>
      simp only [cacheFresh] at hmiss
      simp only [get_competitions_data]
      rw [if_neg (by simpa using hmiss)]
      exact hfetch

/-- Witness for C1 at a concrete stale cache and a concrete network
exception. -/
theorem claim_C1_witness :
    get_competitions_data ⟨none, 0⟩ 0 .exn =
      ⟨FALLBACK_COMPETITIONS, true, ⟨none, 0⟩, true⟩ ∧
    FALLBACK_COMPETITIONS.length = 13 :=
  claim_C1_competitions_failure_path ⟨none, 0⟩ 0 .exn (by decide) (by decide)

/-- C2 counterexample. A status-200 fetch whose body parses to the empty
competition list is a successful fetch: it returns `fallback=false` and
stores `([], now)` in the cache. Yet a second fetch one second later
(well within 300 seconds) performs a remote call and falls back, because
the guard at line 71 tests Python truthiness of the cached data and the
empty list is falsy. This refutes the claim that every fetch within 300
seconds of a successful fetch returns the cached data with
`fallback=false` and no remote call. -/
theorem claim_C2_counterexample :
    (get_competitions_data ⟨none, 0⟩ 0 (.resp 200 (.ok []))).fallback = false ∧
    (get_competitions_data ⟨none, 0⟩ 0 (.resp 200 (.ok []))).cache = ⟨some [], 0⟩ ∧
    (get_competitions_data ⟨some [], 0⟩ 1 .exn).remoteCalled = true ∧
    (get_competitions_data ⟨some [], 0⟩ 1 .exn).fallback = true := by
  exact ⟨rfl, rfl, rfl, rfl⟩

/-- C2 (amended): whenever the second of two fetch-competitions calls
occurs less than 300 seconds after a successful fetch that stored a
non-empty competition list, the second call returns exactly the cached
data with `fallback=false` and performs no remote call; a fetch 300
seconds or more after that fetch performs a new remote call. A
successful status-200 fetch at time `t` leaves the cache in state
`⟨some stored, t⟩` (third conjunct). -/
theorem claim_C2_cache_window (c : Competition) (cs : List Competition)
    (t now : Int) (remote : RemoteCall (List Competition)) :
    (now - t < 300 →
      get_competitions_data ⟨some (c :: cs), t⟩ now remote =
        ⟨c :: cs, false, ⟨some (c :: cs), t⟩, false⟩) ∧
    (300 ≤ now - t →
      (get_competitions_data ⟨some (c :: cs), t⟩ now remote).remoteCalled = true) ∧
    (get_competitions_data ⟨none, 0⟩ t (.resp 200 (.ok (c :: cs)))).cache =
      ⟨some (c :: cs), t⟩ := by
  refine ⟨fun hfresh => ?_, fun hstale => ?_, rfl⟩
  · simp [get_competitions_data, hfresh]
  · have hlt : ¬ (now - t < 300) := by omega
    simp only [get_competitions_data]
    rw [if_neg hlt]
    cases remote with
    | exn => rfl
    | resp s body =>
      cases body with
      | ok v => simp only [fetchCompetitions]; split <;> rfl
      | error e => simp only [fetchCompetitions]; split <;> rfl

/-- Witness for C2 (amended): a concrete fresh hit and a concrete expired
cache. -/
theorem claim_C2_cache_window_witness :
    get_competitions_data ⟨some [⟨"Premier League", "PL", ⟨"England"⟩, "TIER_ONE"⟩], 0⟩ 10 .exn =
      ⟨[⟨"Premier League", "PL", ⟨"England"⟩, "TIER_ONE"⟩], false,
        ⟨some [⟨"Premier League", "PL", ⟨"England"⟩, "TIER_ONE"⟩], 0⟩, false⟩ ∧
    (get_competitions_data ⟨some [⟨"Premier League", "PL", ⟨"England"⟩, "TIER_ONE"⟩], 0⟩ 300 .exn).remoteCalled = true :=
  ⟨(claim_C2_cache_window ⟨"Premier League", "PL", ⟨"England"⟩, "TIER_ONE"⟩ [] 0 10 .exn).1 (by decide),
   (claim_C2_cache_window ⟨"Premier League", "PL", ⟨"England"⟩, "TIER_ONE"⟩ [] 0 300 .exn).2.1 (by decide)⟩

/-- C5. The cache slot is mutated nowhere except on the status-200 success
branch of the competitions fetch, and there its `data` and `timestamp`
fields are written together in the same step: after any call, the cache is
either exactly as before, or exactly `⟨some comps, now⟩` for the parsed
status-200 body `comps` — never one field without the other. The live- and
upcoming-match operations do not touch the cache at all (they neither
receive nor produce a cache state). -/
theorem claim_C5_cache_atomic_update (cache : Cache) (now : Int)
    (remote : RemoteCall (List Competition)) :
    (get_competitions_data cache now remote).cache = cache ∨
    (∃ comps, remote = .resp 200 (.ok comps) ∧
      get_competitions_data cache now remote =
        ⟨comps, false, ⟨some comps, now⟩, true⟩) := by
  obtain ⟨d, ts⟩ := cache
  have hfetch : ∀ (r : RemoteCall (List Competition)),
      (fetchCompetitions ⟨d, ts⟩ now r).cache = ⟨d, ts⟩ ∨
      (∃ comps, r = .resp 200 (.ok comps) ∧
        fetchCompetitions ⟨d, ts⟩ now r = ⟨comps, false, ⟨some comps, now⟩, true⟩) := by
    intro r
    cases r with
    | exn => exact Or.inl rfl
    | resp s body =>
      cases body with
      | ok v =>
        by_cases hs : s = 200
        · subst hs
          exact Or.inr ⟨v, rfl, by simp [fetchCompetitions]⟩
        · exact Or.inl (by simp [fetchCompetitions, hs])
      | error e =>
        left
        simp only [fetchCompetitions]
        split <;> rfl
  cases d with
  | none => exact hfetch remote
  | some l =>
    cases l with
    | nil => exact hfetch remote
    | cons c cs =>
      simp only [get_competitions_data]
      by_cases hf : now - ts < 300
      · rw [if_pos hf]; exact Or.inl rfl
      · rw [if_neg hf]; exact hfetch remote

/-- A sample match record used to instantiate witnesses. -/
def sampleMatch : MatchRec :=
  ⟨⟨"A", none⟩, ⟨"B", none⟩, "2025-01-01T00:00:00Z", "SCHEDULED", "X", ⟨none, none⟩⟩

/-- C3. Upcoming matches: with a configured credential, a status-200
response with a non-empty list yields its first 5 matches with
`fallback=false`; an empty status-200 list, any failing call, or a missing
credential yields the static 3-fixture list with `fallback=true`, whose
kick-off dates are 1, 2 and 3 days after the current instant. -/
theorem claim_C3_upcoming_matches (now : Nat) (key : Option String)
    (remote : RemoteCall (List MatchRec)) :
    (∀ m ms, keyConfigured key = true → remote = .resp 200 (.ok (m :: ms)) →
      get_upcoming_matches now key remote = ⟨(m :: ms).take 5, false, true⟩) ∧
    (keyConfigured key = true → remote = .resp 200 (.ok []) →
      get_upcoming_matches now key remote = ⟨upcomingDefault now, true, true⟩) ∧
    (keyConfigured key = true → remoteFails remote = true →
      get_upcoming_matches now key remote = ⟨upcomingDefault now, true, true⟩) ∧
    (keyConfigured key = false →
      get_upcoming_matches now key remote = ⟨upcomingDefault now, true, false⟩) ∧
    (upcomingDefault now).map (fun m => m.utcDate) =
      [isoFormat (now + 1 * 86400), isoFormat (now + 2 * 86400), isoFormat (now + 3 * 86400)] := by
  refine ⟨?_, ?_, ?_, ?_, rfl⟩
  · rintro m ms hkey rfl
    simp [get_upcoming_matches, hkey]
  · rintro hkey rfl
    simp [get_upcoming_matches, hkey]
  · intro hkey hfail
    cases remote with
    | exn => simp [get_upcoming_matches, hkey]
    | resp s body =>
      cases body with
      | ok v =>
        simp only [remoteFails, Bool.or_eq_true, Bool.not_eq_true'] at hfail
        have hs : s ≠ 200 := by
          rcases hfail with h | h
          · exact fun hc => by simp [hc] at h
          · exact absurd h (by simp)
        simp [get_upcoming_matches, hkey, hs]
      | error e =>
        simp only [get_upcoming_matches, hkey, if_true]
        split <;> rfl
  · intro hkey
    simp [get_upcoming_matches, hkey]

/-- Witness for C3 at concrete credentials and responses. -/
theorem claim_C3_upcoming_matches_witness :
    get_upcoming_matches 0 (some "k") (.resp 200 (.ok [sampleMatch])) =
      ⟨[sampleMatch].take 5, false, true⟩ ∧
    get_upcoming_matches 0 (some "k") (.resp 200 (.ok [])) =
      ⟨upcomingDefault 0, true, true⟩ ∧
    get_upcoming_matches 0 (some "k") .exn = ⟨upcomingDefault 0, true, true⟩ ∧
    get_upcoming_matches 0 none .exn = ⟨upcomingDefault 0, true, false⟩ :=
  ⟨(claim_C3_upcoming_matches 0 (some "k") (.resp 200 (.ok [sampleMatch]))).1
      sampleMatch [] (by decide) rfl,
   (claim_C3_upcoming_matches 0 (some "k") (.resp 200 (.ok []))).2.1 (by decide) rfl,
   (claim_C3_upcoming_matches 0 (some "k") .exn).2.2.1 (by decide) (by decide),
   (claim_C3_upcoming_matches 0 none .exn).2.2.2.1 (by decide)⟩

/-- C4. Live matches: without a configured credential the static fallback
list is returned with `fallback=true` and no network call; with one, a
status-200 response yields at most its first 10 matches (a prefix of the
response of length at most 10) with `fallback=false`; any failing call
yields the static fallback list with `fallback=true`. -/
theorem claim_C4_live_matches (t0 : Nat) (key : Option String)
    (remote : RemoteCall (List MatchRec)) :
    (keyConfigured key = false →
      get_live_matches t0 key remote = ⟨FALLBACK_MATCHES t0, true, false⟩) ∧
    (∀ ms, keyConfigured key = true → remote = .resp 200 (.ok ms) →
      get_live_matches t0 key remote = ⟨ms.take 10, false, true⟩ ∧
      (ms.take 10).length ≤ 10 ∧ ms.take 10 <+: ms) ∧
    (keyConfigured key = true → remoteFails remote = true →
      get_live_matches t0 key remote = ⟨FALLBACK_MATCHES t0, true, true⟩) := by
  refine ⟨?_, ?_, ?_⟩
  · intro hkey
    simp [get_live_matches, hkey]
  · rintro ms hkey rfl
    refine ⟨by simp [get_live_matches, hkey], ?_, List.take_prefix 10 ms⟩
    simp
  · intro hkey hfail
    cases remote with
    | exn => simp [get_live_matches, hkey]
    | resp s body =>
      cases body with
      | ok v =>
        simp only [remoteFails, Bool.or_eq_true, Bool.not_eq_true'] at hfail
        have hs : s ≠ 200 := by
          rcases hfail with h | h
          · exact fun hc => by simp [hc] at h
          · exact absurd h (by simp)
        simp [get_live_matches, hkey, hs]
      | error e =>
        simp only [get_live_matches, hkey, if_true]
        split <;> rfl

/-- Witness for C4 at concrete credentials and responses. -/
theorem claim_C4_live_matches_witness :
    get_live_matches 0 none .exn = ⟨FALLBACK_MATCHES 0, true, false⟩ ∧
    get_live_matches 0 (some "k") (.resp 200 (.ok [sampleMatch])) =
      ⟨[sampleMatch].take 10, false, true⟩ ∧
    get_live_matches 0 (some "k") (.resp 500 (.ok [sampleMatch])) =
      ⟨FALLBACK_MATCHES 0, true, true⟩ :=
  ⟨(claim_C4_live_matches 0 none .exn).1 (by decide),
   ((claim_C4_live_matches 0 (some "k") (.resp 200 (.ok [sampleMatch]))).2.1
      [sampleMatch] (by decide) rfl).1,
   (claim_C4_live_matches 0 (some "k") (.resp 500 (.ok [sampleMatch]))).2.2
      (by decide) (by decide)⟩

/-- C10. With a configured credential, a status-200 live-matches response
whose list is empty is returned as-is: the empty list with
`fallback=false` — the fallback matches are not substituted (unlike the
upcoming-matches operation). -/
theorem claim_C10_live_empty_success (t0 : Nat) (key : Option String)
    (hkey : keyConfigured key = true) :
    get_live_matches t0 key (.resp 200 (.ok [])) = ⟨[], false, true⟩ := by
  simp [get_live_matches, hkey]

/-- Witness for C10 at a concrete credential. -/
theorem claim_C10_live_empty_success_witness :
    get_live_matches 0 (some "k") (.resp 200 (.ok [])) = ⟨[], false, true⟩ :=
  claim_C10_live_empty_success 0 (some "k") (by decide)

/-- Python's `needle in hay` is true for an empty needle. -/
theorem strContains_empty_needle (h : String) : strContains h "" = true := by
  show charsContain h.data [] = true
  cases h.data <;> simp [charsContain, List.isPrefixOf, List.isEmpty]

/-- C7. The search filter keeps exactly the competitions whose lowercased
name or code contains the lowercased term as a substring (so a term
matching no name or code yields the empty list), and the country filter —
applied when a country is given, i.e. non-empty — keeps exactly the
competitions whose area name equals the country ignoring case. -/
theorem claim_C7_search_country_filters (comps : List Competition)
    (search country : String) (c : Competition) :
    (c ∈ filterSearch search comps ↔
      c ∈ comps ∧ (strContains (strToLower c.name) (strToLower search) = true ∨
                   strContains (strToLower c.code) (strToLower search) = true)) ∧
    ((∀ x ∈ comps, strContains (strToLower x.name) (strToLower search) = false ∧
                   strContains (strToLower x.code) (strToLower search) = false) →
      filterSearch search comps = []) ∧
    (country ≠ "" →
      (c ∈ filterCountry country comps ↔
        c ∈ comps ∧ strToLower c.area.name = strToLower country)) := by
  refine ⟨?_, ?_, ?_⟩
  · by_cases hq : strToLower search = ""
    · simp [filterSearch, hq, strContains_empty_needle]
    · simp [filterSearch, hq, List.mem_filter]
  · intro hnone
    by_cases hq : strToLower search = ""
    · cases hcs : comps with
      | nil => simp [filterSearch]
      | cons x xs =>
        exfalso
        have hx := hnone x (by simp [hcs])
        rw [hq] at hx
        have := strContains_empty_needle (strToLower x.name)
        simp [this] at hx
    · simp only [filterSearch, if_neg hq, List.filter_eq_nil_iff]
      intro a ha
      have := hnone a ha
      simp [this.1, this.2]
  · intro hc
    simp [filterCountry, hc, List.mem_filter]

/-- Witness for C7: a term matching nothing yields `[]`, and the country
filter admits the Premier League under `"england"`. -/
theorem claim_C7_search_country_filters_witness :
    filterSearch "zzz" FALLBACK_COMPETITIONS = [] ∧
    ((⟨"Premier League", "PL", ⟨"England"⟩, "TIER_ONE"⟩ : Competition) ∈
        filterCountry "england" FALLBACK_COMPETITIONS ↔
      (⟨"Premier League", "PL", ⟨"England"⟩, "TIER_ONE"⟩ : Competition) ∈ FALLBACK_COMPETITIONS ∧
      strToLower "England" = strToLower "england") :=
  ⟨(claim_C7_search_country_filters FALLBACK_COMPETITIONS "zzz" "england"
      ⟨"Premier League", "PL", ⟨"England"⟩, "TIER_ONE"⟩).2.1 (by decide),
   (claim_C7_search_country_filters FALLBACK_COMPETITIONS "zzz" "england"
      ⟨"Premier League", "PL", ⟨"England"⟩, "TIER_ONE"⟩).2.2 (by decide)⟩

/-- C8. Sorting competitions by name yields a list whose names are
pairwise non-decreasing, and the sort is idempotent. -/
theorem claim_C8_sort_by_name (comps : List Competition) :
    ((sortComps "name" comps).map fun c => c.name).Pairwise (· ≤ ·) ∧
    sortComps "name" (sortComps "name" comps) = sortComps "name" comps := by
  have htrans : ∀ a b c : Competition,
      (fun a b : Competition => (decide (a.name ≤ b.name))) a b →
      (fun a b : Competition => (decide (a.name ≤ b.name))) b c →
      (fun a b : Competition => (decide (a.name ≤ b.name))) a c := by
    intro a b c hab hbc
    simp only [decide_eq_true_eq] at *
    exact le_trans hab hbc
  have htotal : ∀ a b : Competition,
      ((fun a b : Competition => (decide (a.name ≤ b.name))) a b ||
       (fun a b : Competition => (decide (a.name ≤ b.name))) b a) = true := by
    intro a b
    simpa [Bool.or_eq_true, decide_eq_true_eq] using le_total a.name b.name
  have hs : (comps.mergeSort fun a b => a.name ≤ b.name).Pairwise
      fun a b : Competition => (decide (a.name ≤ b.name)) = true :=
    List.sorted_mergeSort htrans htotal comps
  constructor
  · have : (comps.mergeSort fun a b => a.name ≤ b.name).Pairwise
        fun a b : Competition => a.name ≤ b.name :=
      hs.imp fun h => of_decide_eq_true h
    simpa [sortComps, List.pairwise_map]
  · simp only [sortComps, if_pos rfl]
    exact List.mergeSort_of_sorted hs

/-- No month has more than 31 days. -/
theorem daysInMonth_le_31 (y m : Nat) : daysInMonth y m ≤ 31 := by
  unfold daysInMonth
  split
  · split <;> omega
  · split <;> omega

/-- `pad2` always prints exactly two characters on inputs up to 99. -/
theorem pad2_length {n : Nat} (h : n ≤ 99) : (pad2 n).length = 2 := by
  interval_cases n <;> decide

/-- A successfully parsed timestamp satisfies the `datetime` constructor's
range checks. -/
theorem fromisoformat_bounds {s : String} {dt : DT}
    (hp : fromisoformat s = some dt) :
    1 ≤ dt.month ∧ dt.month ≤ 12 ∧ 1 ≤ dt.day ∧ dt.day ≤ 31 ∧
    dt.hour ≤ 23 ∧ dt.minute ≤ 59 ∧ dt.second ≤ 59 := by
  unfold fromisoformat at hp
  split at hp
  · rename_i y mo d h mi sec heq
    unfold mkDT at hp
    split at hp
    · rename_i hcond
      obtain ⟨h1, h2, h3, h4, h5, h6, h7⟩ := hcond
      cases hp
      exact ⟨h1, h2, h3, le_trans h4 (daysInMonth_le_31 y mo), h5, h6, h7⟩
    · cases hp
  · cases hp

/-- C9. The two formatting operations are total functions (nothing is
raised — every exception of the source is absorbed by its `try/except`),
and for every input string: when the timestamp (after the `Z` → `+00:00`
replacement) parses, the time display is the 5-character `HH:MM` print of
the parsed in-range hour and minute and the date display is the
`%B %d, %Y` print of the parsed in-range date; when it does not parse,
the outputs are exactly the sentinels `"TBD"` and `"Date TBD"`. -/
theorem claim_C9_formatting_never_throws (s : String) :
    (∀ dt, fromisoformat (replaceZ s) = some dt →
      format_match_time s = pad2 dt.hour ++ ":" ++ pad2 dt.minute ∧
      (format_match_time s).length = 5 ∧
      dt.hour ≤ 23 ∧ dt.minute ≤ 59 ∧
      format_upcoming_date s =
        monthName dt.month ++ " " ++ pad2 dt.day ++ ", " ++ toString dt.year ∧
      1 ≤ dt.month ∧ dt.month ≤ 12) ∧
    (fromisoformat (replaceZ s) = none →
      format_match_time s = "TBD" ∧ format_upcoming_date s = "Date TBD") := by
  constructor
  · intro dt hdt
    have hb := fromisoformat_bounds hdt
    refine ⟨by simp [format_match_time, hdt], ?_, hb.2.2.2.2.1, hb.2.2.2.2.2.1,
      by simp [format_upcoming_date, hdt], hb.1, hb.2.1⟩
    have l1 : (pad2 dt.hour).length = 2 := pad2_length (by omega)
    have l2 : (pad2 dt.minute).length = 2 := pad2_length (by omega)
    simp only [format_match_time, hdt, String.length_append, l1, l2]
    decide
  · intro hnone
    exact ⟨by simp [format_match_time, hnone], by simp [format_upcoming_date, hnone]⟩

/-- Witness for C9: a well-formed `Z`-suffixed timestamp formats as
`18:30`, and a malformed one yields both sentinels. -/
theorem claim_C9_formatting_never_throws_witness :
    format_match_time "2025-01-23T18:30:00Z" = pad2 18 ++ ":" ++ pad2 30 ∧
    format_match_time "garbage" = "TBD" ∧
    format_upcoming_date "garbage" = "Date TBD" :=
  ⟨((claim_C9_formatting_never_throws "2025-01-23T18:30:00Z").1
      ⟨2025, 1, 23, 18, 30, 0⟩ (by decide)).1,
   ((claim_C9_formatting_never_throws "garbage").2 (by decide)).1,
   ((claim_C9_formatting_never_throws "garbage").2 (by decide)).2⟩

/-- C6 (amended): the competitions fallback flag does reach the template —
the status message is present exactly when that flag is set — but the
live- and upcoming-match fallback flags are not passed to the template:
only their match lists are. -/
theorem claim_C6_status_message_propagation (search sortBy country : String)
    (cache : Cache) (t0 now : Nat) (key : Option String)
    (rc1 rc2 : RemoteCall (List Competition))
    (rlive rupcoming : RemoteCall (List MatchRec)) :
    (home search sortBy country cache t0 now key rc1 rc2 rlive rupcoming).1.status_message =
      (if (get_competitions_data cache (now : Int) rc1).fallback then
        some " Using sample data - Live API data will load when available."
      else none) ∧
    (home search sortBy country cache t0 now key rc1 rc2 rlive rupcoming).1.live_matches =
      (get_live_matches t0 key rlive).matchList.map processMatch ∧
    (home search sortBy country cache t0 now key rc1 rc2 rlive rupcoming).1.upcoming_matches =
      (get_upcoming_matches now key rupcoming).matchList.map processUpcoming :=
  ⟨rfl, rfl, rfl⟩

/-- A sample competition record used in concrete scenarios. -/
def sampleComp : Competition := ⟨"Premier League", "PL", ⟨"England"⟩, "TIER_ONE"⟩

/-- C6 counterexample. Two `home` requests that differ only in the
live-matches remote outcome — one a status-200 success whose body happens
to equal the static fallback list (`fallback=false`), the other a network
exception (`fallback=true`) — render exactly the same template arguments:
the live-matches fallback flag is not propagated to the presentation
layer, refuting the claim for every data-producing operation. -/
theorem claim_C6_counterexample :
    home "" "x" "" ⟨some [sampleComp], 0⟩ 0 0 (some "k") .exn .exn
        (.resp 200 (.ok (FALLBACK_MATCHES 0))) .exn =
      home "" "x" "" ⟨some [sampleComp], 0⟩ 0 0 (some "k") .exn .exn .exn .exn ∧
    (get_live_matches 0 (some "k") (.resp 200 (.ok (FALLBACK_MATCHES 0)))).fallback = false ∧
    (get_live_matches 0 (some "k") .exn).fallback = true := by
  refine ⟨?_, rfl, rfl⟩
  have hlive :
      (get_live_matches 0 (some "k") (.resp 200 (.ok (FALLBACK_MATCHES 0)))).matchList =
      (get_live_matches 0 (some "k") .exn).matchList := by
    decide
  simp only [home]
  rw [hlive]
